import Mathlib

/-!
Shallow embedding of the text-coherence / recursion-heuristic scoring engine of the
verified-inference repository, together with proofs about the claims made by its
specification.

The embedded TypeScript sources are:
* `src/backend/src/utils/logical-analyzer.ts` (namespace `LogicalAnalyzerTs`),
* `src/backend/src/utils/logicalAnalysis.ts` (namespace `LogicalAnalysisTs`),
* `src/backend/src/utils/recursion-detector.ts` (namespace `RecursionDetectorTs`),
* `src/backend/src/services/claude.service.ts` (namespace `ClaudeService`).

JavaScript strings are modelled as `String`/`List Char`; JavaScript numbers are modelled
as exact rationals (`ℚ`), and — where a `NaN` is reachable — as `Option ℚ` with `none`
standing for `NaN` (`JsNum` below).  The handful of regular expressions appearing in the
sources are literal words, literal alternations, character classes, or sequences of
literals separated by `.*`; each is embedded by an executable scanner whose semantics is
spelled out in its doc comment.
-/

namespace VerifiedInference

/-! ## JavaScript character classes -/

/-- The characters matched by the JavaScript regex class `\s` (also the characters
stripped by `String.prototype.trim`): tab, line feed, vertical tab, form feed, carriage
return, space, and the Unicode space separators (NBSP, Ogham space mark, en quad … hair
space, line separator, paragraph separator, narrow NBSP, medium mathematical space,
ideographic space, BOM). -/
def jsIsSpace (c : Char) : Bool :=
  ([9, 10, 11, 12, 13, 32, 0xa0, 0x1680, 0x2000, 0x2001, 0x2002, 0x2003, 0x2004,
    0x2005, 0x2006, 0x2007, 0x2008, 0x2009, 0x200a, 0x2028, 0x2029, 0x202f, 0x205f,
    0x3000, 0xfeff] : List Nat).contains c.toNat

/-- The JavaScript line terminators, i.e. the characters NOT matched by `.` in a regex
without the `s` (dotAll) flag: LF, CR, line separator, paragraph separator. -/
def isLineTerm (c : Char) : Bool :=
  ([10, 13, 0x2028, 0x2029] : List Nat).contains c.toNat

/-- The characters matched by the JavaScript regex class `\w` (no Unicode flag is set
anywhere in the sources): ASCII letters, digits and underscore. -/
def isWordChar (c : Char) : Bool :=
  c.isAlpha || c.isDigit || c == '_'

/-- The sentence-splitting class `[.!?]` used by both analyzers. -/
def isSentPunct (c : Char) : Bool :=
  c == '.' || c == '!' || c == '?'

/-- `String.prototype.toLowerCase`, on the character list.  (Lean's `Char.toLower`
lowers ASCII letters; every pattern occurring in the sources is ASCII.) -/
def lowerChars (l : List Char) : List Char := l.map Char.toLower

/-! ## JavaScript string splitting -/

/-- Auxiliary scanner for `splitRuns`: `acc` holds the (reversed) piece currently being
accumulated, `inSep` records whether the previous character belonged to a separator run
(so that a run of separator characters produces a single cut). -/
def splitRunsAux (p : Char → Bool) : Bool → List Char → List Char → List (List Char)
  | _, acc, [] => [acc.reverse]
  | inSep, acc, c :: cs =>
    if p c then
      if inSep then splitRunsAux p true acc cs
      else acc.reverse :: splitRunsAux p true [] cs
    else splitRunsAux p false (c :: acc) cs

/-- JavaScript `String.prototype.split` on a regex of the form `/[class]+/`
(e.g. `/\s+/`, `/[.!?]+/`): the separators are the maximal runs of characters of the
class, and empty pieces at the beginning, the end, or between adjacent runs are kept,
exactly as in JavaScript (`"".split(/\s+/)` is `[""]`, `" a ".split(/\s+/)` is
`["", "a", ""]`). -/
def splitRuns (p : Char → Bool) (l : List Char) : List (List Char) :=
  splitRunsAux p false [] l

/-- `String.prototype.trim`. -/
def jsTrim (l : List Char) : List Char :=
  ((l.dropWhile jsIsSpace).reverse.dropWhile jsIsSpace).reverse

/-- JavaScript `String.prototype.includes`: `needle` occurs as a contiguous substring. -/
def includesSub (needle : List Char) : List Char → Bool
  | [] => needle.isEmpty
  | c :: cs => needle.isPrefixOf (c :: cs) || includesSub needle cs

/-- Auxiliary scanner for `splitOnSub`.  The first argument is fuel bounding the number
of scanning steps (each step consumes at least one character, so the length of the
string suffices; the zero-fuel case is unreachable from `splitOnSub`). -/
def splitOnSubAux (sep : List Char) : Nat → List Char → List Char → List (List Char)
  | _, acc, [] => [acc.reverse]
  | 0, acc, l => [acc.reverse ++ l]
  | fuel + 1, acc, c :: cs =>
    if sep ≠ [] ∧ sep.isPrefixOf (c :: cs) = true then
      acc.reverse :: splitOnSubAux sep fuel [] (List.drop sep.length (c :: cs))
    else splitOnSubAux sep fuel (c :: acc) cs

/-- JavaScript `String.prototype.split` with a (non-empty) string separator: the string
is cut at every non-overlapping, left-to-right occurrence of `sep`, keeping empty
pieces. -/
def splitOnSub (sep l : List Char) : List (List Char) :=
  splitOnSubAux sep l.length [] l

/-! ## Matching regexes of the form `/L₁.*L₂.*…*Lₙ/`

In a JavaScript regex without the dotAll flag, `.` matches any character except a line
terminator, so `/L₁.*L₂.*…*Lₙ/` matches a string iff some maximal line-terminator-free
segment of it contains the literals `L₁, …, Lₙ` in order.  `findDrop`/`matchSeq` give the
executable scanner; `SeqExists` is the declarative ordered-occurrence property, and
`matchSeq_iff_SeqExists` relates the two. -/

/-- The suffix of `l` that follows the first (leftmost) occurrence of `pat` in `l`, or
`none` if `pat` does not occur. -/
def findDrop (pat : List Char) : List Char → Option (List Char)
  | [] => none
  | c :: cs =>
    if pat.isPrefixOf (c :: cs) then some (List.drop pat.length (c :: cs))
    else findDrop pat cs

/-- Scanner for an ordered sequence of literal patterns: consume the first occurrence of
each pattern in turn. -/
def matchSeq : List (List Char) → List Char → Bool
  | [], _ => true
  | pat :: pats, l =>
    match findDrop pat l with
    | none => false
    | some rest => matchSeq pats rest

/-- Declaratively: `l` contains the given patterns, in order, without overlap. -/
def SeqExists : List (List Char) → List Char → Prop
  | [], _ => True
  | pat :: pats, l => ∃ pre rest, l = pre ++ pat ++ rest ∧ SeqExists pats rest

theorem findDrop_sound {pat : List Char} :
    ∀ {l r : List Char}, findDrop pat l = some r → ∃ pre, l = pre ++ pat ++ r := by
  intro l
  induction l with
  | nil => intro r h; simp [findDrop] at h
  | cons c cs ih =>
    intro r h
    rw [findDrop] at h
    split at h
    · rename_i hpre
      obtain ⟨t, ht⟩ := List.isPrefixOf_iff_prefix.mp hpre
      obtain rfl : r = t := by
        have := congrArg (List.drop pat.length) ht
        rw [List.drop_left] at this
        simpa using (Option.some.inj h).symm.trans this.symm
      exact ⟨[], by simpa using ht.symm⟩
    · obtain ⟨pre, hpre⟩ := ih h
      exact ⟨c :: pre, by simp [hpre]⟩

theorem suffix_of_suffix_length_le {a b l : List Char}
    (ha : a <:+ l) (hb : b <:+ l) (h : a.length ≤ b.length) : a <:+ b := by
  rw [← List.reverse_prefix] at ha hb ⊢
  exact List.prefix_of_prefix_length_le ha hb (by simpa using h)

theorem findDrop_complete {pat : List Char} (hpat : pat ≠ []) :
    ∀ {pre l rest : List Char}, l = pre ++ pat ++ rest →
      ∃ r, findDrop pat l = some r ∧ rest <:+ r := by
  intro pre
  induction pre with
  | nil =>
    intro l rest hl
    simp only [List.nil_append] at hl
    subst hl
    obtain ⟨c, cs, hcons⟩ : ∃ c cs, pat ++ rest = c :: cs := by
      cases hp : pat ++ rest with
      | nil => exact absurd (List.append_eq_nil.mp hp).1 hpat
      | cons c cs => exact ⟨c, cs, rfl⟩
    refine ⟨rest, ?_, List.suffix_refl rest⟩
    rw [hcons, findDrop, if_pos ?_, ← hcons, List.drop_left]
    rw [← hcons]
    exact List.isPrefixOf_iff_prefix.mpr ⟨rest, rfl⟩
  | cons c pre ih =>
    intro l rest hl
    subst hl
    rw [List.cons_append, List.cons_append, findDrop]
    split
    · rename_i hpre
      refine ⟨List.drop pat.length (c :: (pre ++ pat ++ rest)), rfl, ?_⟩
      have hsub : rest <:+ c :: (pre ++ pat ++ rest) :=
        ⟨c :: (pre ++ pat), by simp⟩
      have hdropsub : List.drop pat.length (c :: (pre ++ pat ++ rest)) <:+
          c :: (pre ++ pat ++ rest) := List.drop_suffix _ _
      refine suffix_of_suffix_length_le hsub hdropsub ?_
      simp only [List.length_drop, List.length_cons, List.length_append]
      omega
    · exact ih rfl

theorem SeqExists_mono {pats : List (List Char)} :
    ∀ {rest r : List Char}, rest <:+ r → SeqExists pats rest → SeqExists pats r := by
  induction pats with
  | nil => intro rest r _ _; trivial
  | cons pat pats _ =>
    intro rest r hsuf hex
    obtain ⟨pre, mid, heq, htail⟩ := hex
    obtain ⟨e, he⟩ := hsuf
    exact ⟨e ++ pre, mid, by simp [← he, heq], htail⟩

theorem matchSeq_iff_SeqExists {pats : List (List Char)} (hne : ∀ p ∈ pats, p ≠ []) :
    ∀ {l : List Char}, matchSeq pats l = true ↔ SeqExists pats l := by
  induction pats with
  | nil => intro l; simp [matchSeq, SeqExists]
  | cons pat pats ih =>
    intro l
    have hpat : pat ≠ [] := hne pat (by simp)
    have hne2 : ∀ p ∈ pats, p ≠ [] := fun p hp => hne p (by simp [hp])
    constructor
    · intro h
      rw [matchSeq] at h
      cases hfd : findDrop pat l with
      | none => rw [hfd] at h; simp at h
      | some rest =>
        rw [hfd] at h
        obtain ⟨pre, hpre⟩ := findDrop_sound hfd
        exact ⟨pre, rest, hpre, (ih hne2).mp h⟩
    · rintro ⟨pre, rest, hl, htail⟩
      obtain ⟨r, hr, hsuf⟩ := findDrop_complete hpat hl
      rw [matchSeq, hr]
      exact (ih hne2).mpr (SeqExists_mono hsuf htail)

/-- The test `text.match(/L₁.*…*Lₙ/i)` (as a boolean), for literal patterns `Lᵢ` given
in lowercase: lower the text, cut it at line terminators (`.` does not cross them), and
look for the literals in order inside a single segment. -/
def regexDotSeqTest (pats : List (List Char)) (text : String) : Bool :=
  (splitRuns isLineTerm (lowerChars text.data)).any fun line => matchSeq pats line

/-! ## Word-boundary counting (`new RegExp('\\b' + pat + '\\b', 'g')`) -/

/-- Wordness of the first character of a list (`false` for `[]`). -/
def headWordness : List Char → Bool
  | [] => false
  | c :: _ => isWordChar c

/-- Wordness of the last character of a list (`false` for `[]`). -/
def lastWordness (l : List Char) : Bool :=
  match l.getLast? with
  | some c => isWordChar c
  | none => false

/-- Scanner for counting the non-overlapping matches of `/\bpat\b/g`: a match of the
literal `pat` at a position counts iff there is a word boundary both before and after
it; after a match the scan resumes past it, otherwise it advances one character.
`prevW` is the wordness of the character preceding the current position.  The first
argument is fuel bounding the number of scanning steps (each step consumes at least one
character; the zero-fuel case is unreachable from `countBounded`). -/
def countBoundedAux (pat : List Char) : Nat → Bool → List Char → Nat
  | _, _, [] => 0
  | 0, _, _ => 0
  | fuel + 1, prevW, c :: cs =>
    if pat ≠ [] ∧ (pat.isPrefixOf (c :: cs) && (prevW != headWordness pat) &&
        (lastWordness pat != headWordness (List.drop pat.length (c :: cs)))) = true then
      1 + countBoundedAux pat fuel (lastWordness pat) (List.drop pat.length (c :: cs))
    else countBoundedAux pat fuel (isWordChar c) cs

/-- Number of matches of `/\bpat\b/g` in `text`. -/
def countBounded (pat text : List Char) : Nat :=
  countBoundedAux pat text.length false text

/-- The test `/\bpat\b/.test(text)`. -/
def testBounded (pat text : List Char) : Bool :=
  countBounded pat text != 0

/-- Fuel-bounded scanner for `countSubsAlt` (each step consumes at least one character;
the zero-fuel case is unreachable from `countSubsAlt`). -/
def countSubsAltAux (pats : List (List Char)) : Nat → List Char → Nat
  | _, [] => 0
  | 0, _ => 0
  | fuel + 1, c :: cs =>
    match pats.find? (fun p => !p.isEmpty && p.isPrefixOf (c :: cs)) with
    | some p => 1 + countSubsAltAux pats fuel (List.drop p.length (c :: cs))
    | none => countSubsAltAux pats fuel cs

/-- Count of the non-overlapping matches of a global alternation of literals
(`/w₁|w₂|…/g`): at each position the first listed alternative that matches is taken and
the scan resumes past it; otherwise the scan advances one character. -/
def countSubsAlt (pats : List (List Char)) (l : List Char) : Nat :=
  countSubsAltAux pats l.length l

/-- Case-insensitive search for `pat` (given lowercase): the suffix of `l` following the
first position where `pat` matches the lowercased window, or `none`.  Used for
`text.match(/evidence:(.*)/is)`, whose capture is the (original-case) remainder of the
string after the first case-insensitive `evidence:`. -/
def afterSubCI (pat : List Char) : List Char → Option (List Char)
  | [] => none
  | c :: cs =>
    if pat.isPrefixOf (lowerChars (c :: cs)) then some (List.drop pat.length (c :: cs))
    else afterSubCI pat cs

/-! ## Specific literal-regex scanners -/

/-- Fuel-bounded scanner for `bulletCount` (each step consumes at least one character;
the zero-fuel case is unreachable from `bulletCount`). -/
def bulletCountAux : Nat → List Char → Nat
  | _, [] => 0
  | 0, _ => 0
  | fuel + 1, c :: cs =>
    if c = '\n' then
      match cs.dropWhile jsIsSpace with
      | b :: bs =>
        if b = '-' ∨ b = '•' then 1 + bulletCountAux fuel bs else bulletCountAux fuel cs
      | [] => 0
    else bulletCountAux fuel cs

/-- Count of matches of `/\n\s*[-•]/g`: since `\s` and `[-•]` are disjoint, the regex
matches at a `\n` exactly when the first non-whitespace character after it is `-` or
`•`; the scan resumes after the bullet character. -/
def bulletCount (l : List Char) : Nat :=
  bulletCountAux l.length l

/-- The test `/\[\d+\]/`: a `[`, one or more digits, then `]`.  Greedy `\d+` backtracks
only over digits, so a match at a `[` requires the maximal digit run after it to be
non-empty and followed by `]`. -/
def bracketNumTest : List Char → Bool
  | [] => false
  | c :: cs =>
    (c == '[' && !(cs.takeWhile Char.isDigit).isEmpty &&
      (match cs.dropWhile Char.isDigit with
       | ']' :: _ => true
       | _ => false)) ||
    bracketNumTest cs

/-- The test `/\(\d{4}\)/`: a `(`, exactly four digits, then `)`. -/
def parenYearTest : List Char → Bool
  | [] => false
  | c :: cs =>
    (c == '(' && (cs.take 4).length == 4 && (cs.take 4).all Char.isDigit &&
      (match cs.drop 4 with
       | ')' :: _ => true
       | _ => false)) ||
    parenYearTest cs

/-- The test `/https?:\/\//` (case-sensitive, as in the sources). -/
def urlTest (l : List Char) : Bool :=
  includesSub "http://".data l || includesSub "https://".data l

/-- The test `/\d+%/`: some digit immediately followed by `%`. -/
def digitPercentTest : List Char → Bool
  | c :: d :: rest => (c.isDigit && d == '%') || digitPercentTest (d :: rest)
  | _ => false

/-- The test `/\$\d+/`: a `$` immediately followed by a digit. -/
def dollarDigitTest : List Char → Bool
  | c :: d :: rest => (c == '$' && d.isDigit) || dollarDigitTest (d :: rest)
  | _ => false

/-- The test `/\d+\s*(times|x)/`: a digit, then optional whitespace, then `times` or
`x`.  (`\s*` backtracks only over whitespace, and both alternatives start with a
non-whitespace character, so only the maximal whitespace skip can match.) -/
def timesXTest : List Char → Bool
  | [] => false
  | c :: cs =>
    (c.isDigit &&
      ("times".data.isPrefixOf (cs.dropWhile jsIsSpace) ||
       "x".data.isPrefixOf (cs.dropWhile jsIsSpace))) ||
    timesXTest cs

/-! ## JavaScript numbers with NaN (`JsNum`)

`none` models `NaN`.  JavaScript arithmetic propagates `NaN`; `Math.min`/`Math.max`
return `NaN` if any argument is `NaN`; every comparison against `NaN` is false;
`Math.round(NaN)` is `NaN`.  Division by zero yields `NaN` for `0/0` and `±Infinity`
otherwise; `jdiv` maps every division by zero to `none`, which is faithful at every
division site of the embedded sources, because there a zero divisor forces a zero
dividend (the divisors are word/sentence counts of the same text the numerators are
pattern counts of). -/

abbrev JsNum := Option ℚ

/-- A (non-NaN) JavaScript number. -/
def jq (x : ℚ) : JsNum := some x

/-- A JavaScript number coming from a length or count. -/
def jn (n : ℕ) : JsNum := some (n : ℚ)

def jadd : JsNum → JsNum → JsNum
  | some a, some b => some (a + b)
  | _, _ => none

def jsub : JsNum → JsNum → JsNum
  | some a, some b => some (a - b)
  | _, _ => none

def jmul : JsNum → JsNum → JsNum
  | some a, some b => some (a * b)
  | _, _ => none

def jdiv : JsNum → JsNum → JsNum
  | some a, some b => if b = 0 then none else some (a / b)
  | _, _ => none

/-- `Math.min`. -/
def jminN : JsNum → JsNum → JsNum
  | some a, some b => some (min a b)
  | _, _ => none

/-- `Math.max`. -/
def jmaxN : JsNum → JsNum → JsNum
  | some a, some b => some (max a b)
  | _, _ => none

/-- The comparison `a < b` (false whenever either side is `NaN`). -/
def jltB : JsNum → JsNum → Bool
  | some a, some b => decide (a < b)
  | _, _ => false

/-- The comparison `a > b` (false whenever either side is `NaN`). -/
def jgtB (a b : JsNum) : Bool := jltB b a

/-- `Math.round` (round half towards positive infinity). -/
def jround : JsNum → JsNum
  | some a => some ((⌊a + 1/2⌋ : ℤ) : ℚ)
  | none => none

/-- The idiom `Math.round(x * 100) / 100` used to round metrics to two decimals. -/
def jround2 (x : JsNum) : JsNum :=
  jdiv (jround (jmul x (jn 100))) (jn 100)

/-! ## `src/backend/src/utils/logical-analyzer.ts` -/

namespace LogicalAnalyzerTs

/-- The interface `CoherenceMetrics`.  Every field is documented in the source as a
number in 0–1; fields are `JsNum` because `f` (and with it `soulEcho` and
`collapseRisk`) is `NaN` when the text has no words. -/
structure CoherenceMetrics where
  psi : JsNum
  rho : JsNum
  q : JsNum
  f : JsNum
  soulEcho : JsNum
  collapseRisk : JsNum

/-- The pattern groups of the interface `LogicalAnalysis`. -/
structure PatternGroups where
  recursive : List String
  toxic : List String
  structural : List String

inductive RiskLevel
  | LOW
  | MEDIUM
  | HIGH
  | CRITICAL
deriving DecidableEq

/-- The interface `LogicalAnalysis`. -/
structure LogicalAnalysis where
  metrics : CoherenceMetrics
  patterns : PatternGroups
  riskLevel : RiskLevel
  recommendations : List String

namespace LogicalAnalyzer

def RECURSIVE_INDICATORS : List String :=
  ["proves", "because", "therefore", "thus", "clearly",
   "obviously", "definitely", "certainly", "undoubtedly"]

def TOXIC_PATTERNS : List String :=
  ["must", "always", "never", "everyone", "no one",
   "impossible", "guaranteed", "absolutely", "completely"]

def ABSOLUTIST_MARKERS : List String :=
  ["!", "!!", "!!!", "MUST", "ALWAYS", "NEVER", "CANNOT"]

/-- The class's `static readonly` pattern lists, made explicit as a state so that
statelessness of the analyzer is a statement rather than an artifact of the embedding
(the TypeScript class has no other fields, and never assigns to these). -/
structure AnalyzerStatics where
  recursiveIndicators : List String
  toxicPatterns : List String
  absolutistMarkers : List String

/-- The statics as initialized in the source. -/
def statics : AnalyzerStatics :=
  { recursiveIndicators := RECURSIVE_INDICATORS,
    toxicPatterns := TOXIC_PATTERNS,
    absolutistMarkers := ABSOLUTIST_MARKERS }

/-- `countPatterns`: total number of `\b…\b`-bounded, lowercased matches of the given
patterns in the lowercased text. -/
def countPatterns (text : String) (patterns : List String) : Nat :=
  patterns.foldl
    (fun count pat => count + countBounded (lowerChars pat.data) (lowerChars text.data)) 0

/-- `detectPatterns`: the patterns whose bounded lowercased regex tests true on the
lowercased text, in list order. -/
def detectPatterns (text : String) (patterns : List String) : List String :=
  patterns.filter fun pat => testBounded (lowerChars pat.data) (lowerChars text.data)

/-- `text.toLowerCase().split(/\s+/).filter(w => w.length > 0)`. -/
def wordsOf (text : String) : List (List Char) :=
  (splitRuns jsIsSpace (lowerChars text.data)).filter fun w => w.length != 0

/-- `text.split(/[.!?]+/).filter(s => s.trim().length > 0)`. -/
def sentencesOf (text : String) : List (List Char) :=
  (splitRuns isSentPunct text.data).filter fun s => (jsTrim s).length != 0

/-- `analyzeCoherence`, parameterized by the statics.  Note that `f` divides by
`words.length` with no `Math.max(…, 1)` guard, unlike every neighbouring density. -/
def analyzeCoherenceWith (s : AnalyzerStatics) (text : String) : CoherenceMetrics :=
  let words := wordsOf text
  let sentences := sentencesOf text
  let recursiveCount := countPatterns text s.recursiveIndicators
  let toxicCount := countPatterns text s.toxicPatterns
  let absolutistCount := countPatterns text s.absolutistMarkers
  let wordDensity := jdiv (jn words.length) (jn (max sentences.length 1))
  let recursiveDensity := jdiv (jn recursiveCount) (jn (max words.length 1))
  let toxicDensity := jdiv (jn toxicCount) (jn (max words.length 1))
  let psi := jmaxN (jq 0)
    (jsub (jq 1) (jadd (jmul recursiveDensity (jq 2)) (jmul toxicDensity (jq 3))))
  let rho := jminN (jq 1) (jmul recursiveDensity (jq 10))
  let q := jminN (jq 1) (jdiv wordDensity (jq 30))
  let f := jminN (jq 1) (jmul (jdiv (jn absolutistCount) (jn words.length)) (jq 20))
  let soulEcho := jadd (jadd (jmul psi (jq 0.4)) (jmul (jsub (jq 1) rho) (jq 0.3)))
    (jmul (jsub (jq 1) f) (jq 0.3))
  let collapseRisk := jminN (jq 1)
    (jadd (jadd (jmul rho (jq 0.5)) (jmul f (jq 0.3))) (jmul toxicDensity (jq 10)))
  { psi := jround2 psi, rho := jround2 rho, q := jround2 q, f := jround2 f,
    soulEcho := jround2 soulEcho, collapseRisk := jround2 collapseRisk }

/-- `LogicalAnalyzer.analyzeCoherence`. -/
def analyzeCoherence (text : String) : CoherenceMetrics :=
  analyzeCoherenceWith statics text

/-- The test `text.match(/because.*therefore.*because/i)` of `detectStructuralIssues`. -/
def circularRegexTest (text : String) : Bool :=
  regexDotSeqTest ["because".data, "therefore".data, "because".data] text

/-- `(text.match(/[A-Z]/g) || []).length`. -/
def capsCount (text : String) : Nat :=
  (text.data.filter fun c => c.isUpper).length

/-- `text.toLowerCase().split(/\s+/)` (unfiltered) of `detectStructuralIssues`. -/
def rawWords (text : String) : List (List Char) :=
  splitRuns jsIsSpace (lowerChars text.data)

/-- `detectStructuralIssues`.  The capitalization ratio divides by `text.length`
(`jdiv` yields `none` for the empty text, and a comparison against `none` is false,
matching JavaScript's `NaN > 0.3`). -/
def detectStructuralIssues (text : String) : List String :=
  (if circularRegexTest text then ["Circular reasoning detected"] else [])
  ++ (if jgtB (jdiv (jn (capsCount text)) (jn text.data.length)) (jq 0.3) then
        ["Excessive capitalization"] else [])
  ++ (if ((rawWords text).dedup.length : ℚ) < (rawWords text).length * 0.5 then
        ["High word repetition"] else [])

/-- `calculateRiskLevel`. -/
def calculateRiskLevel (metrics : CoherenceMetrics) : RiskLevel :=
  if jgtB metrics.collapseRisk (jq 0.8) || jltB metrics.soulEcho (jq 0.2) then .CRITICAL
  else if jgtB metrics.collapseRisk (jq 0.6) || jltB metrics.soulEcho (jq 0.4) then .HIGH
  else if jgtB metrics.collapseRisk (jq 0.4) || jltB metrics.soulEcho (jq 0.6) then .MEDIUM
  else .LOW

/-- `generateRecommendations`. -/
def generateRecommendations (metrics : CoherenceMetrics) (patterns : PatternGroups) :
    List String :=
  (if jgtB metrics.rho (jq 0.5) then ["Reduce recursive language patterns"] else [])
  ++ (if jgtB metrics.f (jq 0.5) then ["Avoid absolutist statements"] else [])
  ++ (if patterns.toxic.length != 0 then
        ["Replace toxic patterns with balanced language"] else [])
  ++ (if patterns.structural.contains "Circular reasoning detected" then
        ["Break circular reasoning with evidence-based statements"] else [])
  ++ (if jltB metrics.soulEcho (jq 0.4) then
        ["Restructure inference for better logical flow"] else [])

/-- `analyzeInference`, parameterized by the statics.  (The `logger.info` call writes to
an external sink and affects no later result; it is not modelled.) -/
def analyzeInferenceWith (s : AnalyzerStatics) (inferenceText : String) : LogicalAnalysis :=
  let metrics := analyzeCoherenceWith s inferenceText
  let patterns : PatternGroups :=
    { recursive := detectPatterns inferenceText s.recursiveIndicators,
      toxic := detectPatterns inferenceText s.toxicPatterns,
      structural := detectStructuralIssues inferenceText }
  { metrics := metrics, patterns := patterns,
    riskLevel := calculateRiskLevel metrics,
    recommendations := generateRecommendations metrics patterns }

/-- `LogicalAnalyzer.analyzeInference` (of `logical-analyzer.ts`). -/
def analyzeInference (inferenceText : String) : LogicalAnalysis :=
  analyzeInferenceWith statics inferenceText

/-- State-passing form of `analyzeCoherence`: the class state consists of the static
pattern lists, which the method reads and never writes. -/
def analyzeCoherenceSt (s : AnalyzerStatics) (text : String) :
    CoherenceMetrics × AnalyzerStatics :=
  (analyzeCoherenceWith s text, s)

/-- State-passing form of `analyzeInference`. -/
def analyzeInferenceSt (s : AnalyzerStatics) (inferenceText : String) :
    LogicalAnalysis × AnalyzerStatics :=
  (analyzeInferenceWith s inferenceText, s)

inductive Trend
  | improving
  | stable
  | degrading
deriving DecidableEq

/-- Return type of `analyzeInferenceChain`.  `criticalPoints` are integers because the
source builds the list by mapping indices to `-1` before filtering. -/
structure ChainAnalysis where
  overallCoherence : JsNum
  trend : Trend
  criticalPoints : List ℤ

/-- `analyses.reduce((sum, a) => sum + a.soulEcho, 0)`. -/
def soulSum (analyses : List CoherenceMetrics) : JsNum :=
  analyses.foldl (fun sum a => jadd sum a.soulEcho) (jq 0)

/-- `analyzeInferenceChain`. -/
def analyzeInferenceChain (inferences : List String) : ChainAnalysis :=
  let analyses := inferences.map analyzeCoherence
  let overallCoherence := jdiv (soulSum analyses) (jn analyses.length)
  let firstHalf := analyses.take (analyses.length / 2)
  let secondHalf := analyses.drop (analyses.length / 2)
  let firstAvg := jdiv (soulSum firstHalf) (jn firstHalf.length)
  let secondAvg := jdiv (soulSum secondHalf) (jn secondHalf.length)
  let trend : Trend :=
    if jgtB secondAvg (jadd firstAvg (jq 0.1)) then .improving
    else if jltB secondAvg (jsub firstAvg (jq 0.1)) then .degrading
    else .stable
  let criticalPoints :=
    (analyses.enum.map fun p =>
      if jltB p.2.soulEcho (jq 0.3) then (p.1 : ℤ) else -1).filter fun i => i != -1
  { overallCoherence := jround2 overallCoherence, trend := trend,
    criticalPoints := criticalPoints }

end LogicalAnalyzer

end LogicalAnalyzerTs

/-! ## `src/backend/src/utils/logicalAnalysis.ts` (the second `LogicalAnalyzer`) -/

namespace LogicalAnalysisTs

/-- The interface `LogicalMetrics`.  No division in this file can produce a `NaN`
(see `similarConcepts` below), so plain rationals suffice. -/
structure LogicalMetrics where
  consistency : ℚ
  evidenceStrength : ℚ
  reasoningClarity : ℚ

namespace LogicalAnalyzer

def connectives : List String :=
  ["therefore", "because", "since", "thus", "hence", "consequently"]

/-- `connectives.some(conn => rationale.toLowerCase().includes(conn) ||
inference.toLowerCase().includes(conn))`. -/
def hasConnectives (inference rationale : String) : Bool :=
  connectives.any fun conn =>
    includesSub conn.data (lowerChars rationale.data) ||
    includesSub conn.data (lowerChars inference.data)

/-- The contradiction regexes `/but.*however/i`, `/although.*nevertheless/i`,
`/despite.*still/i`, as ordered literal pairs. -/
def contradictionPatterns : List (List (List Char)) :=
  [["but".data, "however".data],
   ["although".data, "nevertheless".data],
   ["despite".data, "still".data]]

/-- `contradictionPatterns.some(p => rationale.match(p) || inference.match(p))`. -/
def hasContradictions (inference rationale : String) : Bool :=
  contradictionPatterns.any fun p =>
    regexDotSeqTest p rationale || regexDotSeqTest p inference

def recursiveIndicators : List String :=
  ["proves", "clearly", "obviously", "definitely"]

/-- `recursiveIndicators.filter(ind => inference.toLowerCase().includes(ind)).length`. -/
def recursiveIndicatorCount (inference : String) : Nat :=
  (recursiveIndicators.filter fun ind =>
    includesSub ind.data (lowerChars inference.data)).length

def toxicPatterns : List String :=
  ["must always", "never", "impossible", "guaranteed"]

/-- `toxicPatterns.some(p => inference.toLowerCase().includes(p))`. -/
def hasToxicAbsolutism (inference : String) : Bool :=
  toxicPatterns.any fun p => includesSub p.data (lowerChars inference.data)

/-- Context-alignment overlap: the words of the lowercased inference (split on `/\s+/`,
unfiltered) that occur among the words of the lowercased context and are longer
than 3. -/
def overlapCount (inference context : String) : Nat :=
  ((splitRuns jsIsSpace (lowerChars inference.data)).filter fun word =>
    (splitRuns jsIsSpace (lowerChars context.data)).contains word && 3 < word.length).length

/-- `calculateConsistency`. -/
def calculateConsistency (inference rationale context : String) : ℚ :=
  let score : ℚ := 0.5
  let score := if hasConnectives inference rationale then score + 0.2 else score
  let score := if hasContradictions inference rationale then score - 0.2 else score
  let score := if 2 < recursiveIndicatorCount inference then score - 0.15 else score
  let score := if hasToxicAbsolutism inference then score - 0.1 else score
  let alignmentScore := min ((overlapCount inference context : ℚ) / 10) 0.3
  let score := score + alignmentScore
  max 0 (min 1 score)

def evidenceMarkers : List String :=
  ["evidence:", "based on", "according to", "data shows",
   "research indicates", "studies suggest", "analysis reveals"]

/-- `evidenceMarkers.filter(m => rationale.toLowerCase().includes(m) ||
inference.toLowerCase().includes(m)).length`. -/
def evidenceMarkerCount (inference rationale : String) : Nat :=
  (evidenceMarkers.filter fun m =>
    includesSub m.data (lowerChars rationale.data) ||
    includesSub m.data (lowerChars inference.data)).length

/-- `citationPatterns.some(p => rationale.match(p) || inference.match(p))` for
`/\[\d+\]/`, `/\(\d{4}\)/`, `/https?:\/\//`. -/
def hasCitations (inference rationale : String) : Bool :=
  (bracketNumTest rationale.data || bracketNumTest inference.data) ||
  (parenYearTest rationale.data || parenYearTest inference.data) ||
  (urlTest rationale.data || urlTest inference.data)

/-- `quantitativePatterns.some(p => rationale.match(p) || inference.match(p))` for
`/\d+%/`, `/\$\d+/`, `/\d+\s*(times|x)/`. -/
def hasQuantitative (inference rationale : String) : Bool :=
  (digitPercentTest rationale.data || digitPercentTest inference.data) ||
  (dollarDigitTest rationale.data || dollarDigitTest inference.data) ||
  (timesXTest rationale.data || timesXTest inference.data)

/-- `calculateEvidenceStrength`. -/
def calculateEvidenceStrength (inference rationale : String) : ℚ :=
  let score : ℚ := 0.3
  let score := score + min ((evidenceMarkerCount inference rationale : ℚ) * 0.15) 0.4
  let score := if hasCitations inference rationale then score + 0.2 else score
  let score := if hasQuantitative inference rationale then score + 0.1 else score
  max 0 (min 1 score)

def structureMarkers : List String :=
  ["first", "second", "third", "additionally", "furthermore", "moreover",
   "in conclusion", "to summarize", "overall"]

/-- `structureMarkers.filter(m => rationale.toLowerCase().includes(m)).length`. -/
def structureMarkerCount (rationale : String) : Nat :=
  (structureMarkers.filter fun m =>
    includesSub m.data (lowerChars rationale.data)).length

def causalMarkers : List String :=
  ["causes", "leads to", "results in", "due to",
   "because of", "as a result", "consequently"]

/-- `causalMarkers.some(m => rationale.toLowerCase().includes(m))`. -/
def hasCausalMarkers (rationale : String) : Bool :=
  causalMarkers.any fun m => includesSub m.data (lowerChars rationale.data)

/-- `rationale.split(/\s+/).length` (unfiltered: the empty rationale has word count 1,
as in JavaScript). -/
def rationaleWordCount (rationale : String) : Nat :=
  (splitRuns jsIsSpace rationale.data).length

/-- `calculateReasoningClarity`. -/
def calculateReasoningClarity (rationale : String) : ℚ :=
  let score : ℚ := 0.4
  let score := score + min ((structureMarkerCount rationale : ℚ) * 0.1) 0.3
  let score := if hasCausalMarkers rationale then score + 0.2 else score
  let score := if 200 < rationaleWordCount rationale then score - 0.1 else score
  let score := if rationaleWordCount rationale < 20 then score - 0.2 else score
  max 0 (min 1 score)

/-- `LogicalAnalyzer.analyzeInference` (of `logicalAnalysis.ts`). -/
def analyzeInference (inference rationale context : String) : LogicalMetrics :=
  { consistency := calculateConsistency inference rationale context,
    evidenceStrength := calculateEvidenceStrength inference rationale,
    reasoningClarity := calculateReasoningClarity rationale }

/-- `calculateCoherenceScore`: weighted average with weights 0.4 / 0.35 / 0.25. -/
def calculateCoherenceScore (metrics : LogicalMetrics) : ℚ :=
  metrics.consistency * 0.4 + metrics.evidenceStrength * 0.35 +
    metrics.reasoningClarity * 0.25

/-- `similarConcepts`.  The division `commonWords.length / min(words1.length,
words2.length)` would be `0/0` (JavaScript `NaN`) only when one side has no words
longer than 3, and then `commonWords` is empty too; both JavaScript (`NaN > 0.5`) and
this embedding (Lean's `0/0 = 0 > 0.5`) answer false there, so plain `ℚ` is faithful. -/
def similarConcepts (text1 text2 : List Char) : Bool :=
  let words1 := (splitRuns jsIsSpace text1).filter fun w => 3 < w.length
  let words2 := (splitRuns jsIsSpace text2).filter fun w => 3 < w.length
  let commonWords := words1.filter fun w => words2.contains w
  decide (0.5 < (commonWords.length : ℚ) / (min words1.length words2.length : ℚ))

/-- `text.split(/[.!?]+/).map(s => s.trim()).filter(s => s)`. -/
def sentencesTrimmed (text : String) : List (List Char) :=
  ((splitRuns isSentPunct text.data).map jsTrim).filter fun s => s.length != 0

/-- Body of the double loop of `detectCircularReasoning` for one pair `i < j` of
sentences. -/
def circularPair (a b : List Char) : Bool :=
  let sent1 := lowerChars a
  let sent2 := lowerChars b
  includesSub "because".data sent1 && includesSub "because".data sent2 &&
  (match splitOnSub "because".data sent1, splitOnSub "because".data sent2 with
   | [effect1, cause1], [effect2, cause2] =>
     similarConcepts (jsTrim cause1) (jsTrim effect2) &&
     similarConcepts (jsTrim cause2) (jsTrim effect1)
   | _, _ => false)

/-- `∃ i < j` over a list, in loop order. -/
def anyPair (p : α → α → Bool) : List α → Bool
  | [] => false
  | x :: xs => xs.any (p x) || anyPair p xs

/-- `detectCircularReasoning`. -/
def detectCircularReasoning (text : String) : Bool :=
  anyPair circularPair (sentencesTrimmed text)

end LogicalAnalyzer

end LogicalAnalysisTs

/-! ## `src/backend/src/utils/recursion-detector.ts` -/

namespace RecursionDetectorTs

inductive PatternType
  | circular
  | selfReferential
  | infiniteLoop
  | tautological
deriving DecidableEq, BEq

inductive Severity
  | low
  | medium
  | high
  | critical
deriving DecidableEq, BEq

/-- The interface `RecursionPattern`.  The source also carries an optional field with
the matched substring (`match[0]`); no code or claim observes it and it is omitted. -/
structure RecursionPattern where
  type : PatternType
  location : String
  severity : Severity
  description : String
deriving DecidableEq

/-- The interface `RecursionAnalysis`. -/
structure RecursionAnalysis where
  hasRecursion : Bool
  patterns : List RecursionPattern
  recursionScore : ℚ
  recommendations : List String

namespace RecursionDetector

/-- `SELF_REFERENTIAL_PATTERNS`: each regex is a literal, tested case-insensitively. -/
def SELF_REFERENTIAL_PATTERNS : List String :=
  ["this is true because it is true", "it works because it works",
   "proves itself", "self-evident", "obviously correct"]

/-- `CIRCULAR_PATTERNS`: each regex is a sequence of literals separated by `.*`,
tested case-insensitively (`/A causes B.*B causes A/i`,
`/because.*therefore.*because/i`, `/leads to.*which leads back to/i`,
`/results in.*resulting from/i`). -/
def CIRCULAR_PATTERNS : List (List (List Char)) :=
  [["a causes b".data, "b causes a".data],
   ["because".data, "therefore".data, "because".data],
   ["leads to".data, "which leads back to".data],
   ["results in".data, "resulting from".data]]

/-- `TAUTOLOGICAL_PATTERNS`: literals, tested case-insensitively. -/
def TAUTOLOGICAL_PATTERNS : List String :=
  ["is what it is", "by definition", "necessarily true", "cannot be false"]

/-- `detectSelfReferential`. -/
def detectSelfReferential (text : String) : List RecursionPattern :=
  SELF_REFERENTIAL_PATTERNS.enum.filterMap fun p =>
    if includesSub p.2.data (lowerChars text.data) then
      some { type := .selfReferential, location := "Pattern " ++ toString (p.1 + 1),
             severity := .high, description := "Statement refers to itself as proof" }
    else none

/-- `text.split(/[.!?]+/).map(s => s.trim()).filter(s => s)`, as in `detectCircular`
and `detectConceptLoops`. -/
def trimmedSentences (text : String) : List (List Char) :=
  ((splitRuns isSentPunct text.data).map jsTrim).filter fun s => s.length != 0

/-- A cause/effect pair of `extractCausalPairs`. -/
structure CausalPair where
  cause : List Char
  effect : List Char
deriving DecidableEq, BEq

def causalWords : List String :=
  ["because", "causes", "leads to", "results in", "therefore"]

/-- `extractCausalPairs`: for each sentence and causal word (in loop order), if the
lowercased sentence splits into exactly two parts around the word, record
`{cause: parts[1].trim(), effect: parts[0].trim()}`. -/
def extractCausalPairs (sentences : List (List Char)) : List CausalPair :=
  sentences.flatMap fun sent =>
    causalWords.filterMap fun word =>
      match splitOnSub word.data (lowerChars sent) with
      | [effectPart, causePart] =>
        some { cause := jsTrim causePart, effect := jsTrim effectPart }
      | _ => none

/-- The A→B→A double loop of `detectCircular` over the extracted causal pairs
(both orders of a mutual pair are reported, as in the source). -/
def causalLoopPatterns (pairs : List CausalPair) : List RecursionPattern :=
  pairs.enum.flatMap fun p1 =>
    pairs.enum.filterMap fun p2 =>
      if p1.1 != p2.1 && p1.2.cause == p2.2.effect && p1.2.effect == p2.2.cause then
        some { type := .circular,
               location := "Sentences " ++ toString (p1.1 + 1) ++ " and " ++
                 toString (p2.1 + 1),
               severity := .critical,
               description := "Circular causation between concepts" }
      else none

/-- `detectCircular`. -/
def detectCircular (text : String) : List RecursionPattern :=
  (CIRCULAR_PATTERNS.enum.filterMap fun p =>
    if regexDotSeqTest p.2 text then
      some { type := .circular, location := "Circular pattern " ++ toString (p.1 + 1),
             severity := .critical, description := "Circular causation detected" }
    else none)
  ++ causalLoopPatterns (extractCausalPairs (trimmedSentences text))

/-- `detectTautological`. -/
def detectTautological (text : String) : List RecursionPattern :=
  TAUTOLOGICAL_PATTERNS.enum.filterMap fun p =>
    if includesSub p.2.data (lowerChars text.data) then
      some { type := .tautological, location := "Tautology " ++ toString (p.1 + 1),
             severity := .medium,
             description := "Statement is true by definition, not by evidence" }
    else none

def defKeywords : List String := ["is", "are", "means", "equals"]

/-- Attempt to match `/(\w+)\s+(?:is|are|means|equals)\s+(\w+)/` at the start of `l`:
a maximal non-empty `\w` run, non-empty whitespace, one of the keywords (their first
letters are pairwise distinct, so no backtracking between alternatives is possible),
non-empty whitespace, a non-empty `\w` run. -/
def defMatchAt (l : List Char) : Option (List Char × List Char) :=
  let w1 := l.takeWhile isWordChar
  if w1.isEmpty then none
  else
    let r1 := l.dropWhile isWordChar
    if (r1.takeWhile jsIsSpace).isEmpty then none
    else
      let r2 := r1.dropWhile jsIsSpace
      match defKeywords.find? (fun k => k.data.isPrefixOf r2) with
      | none => none
      | some k =>
        let r3 := List.drop k.data.length r2
        if (r3.takeWhile jsIsSpace).isEmpty then none
        else
          let r4 := r3.dropWhile jsIsSpace
          let w2 := r4.takeWhile isWordChar
          if w2.isEmpty then none else some (w1, w2)

/-- Leftmost match of the definition regex (`String.prototype.match` tries every start
position in order). -/
def firstDefMatch : List Char → Option (List Char × List Char)
  | [] => none
  | c :: cs =>
    match defMatchAt (c :: cs) with
    | some r => some r
    | none => firstDefMatch cs

/-- A term/definition pair of `detectConceptLoops`. -/
structure DefPair where
  term : List Char
  definition : List Char
deriving DecidableEq, BEq

/-- The definitions extracted by `detectConceptLoops`: the first match per sentence,
captures lowercased.  (The regex has the `i` flag; matching on the lowercased sentence
is equivalent because lowering preserves the `\w` and `\s` classes.) -/
def extractDefinitions (text : String) : List DefPair :=
  (trimmedSentences text).filterMap fun sent =>
    (firstDefMatch (lowerChars sent)).map fun m =>
      { term := m.1, definition := m.2 }

/-- The mutual-definition double loop of `detectConceptLoops` (both orders reported). -/
def detectConceptLoops (text : String) : List RecursionPattern :=
  let definitions := extractDefinitions text
  definitions.enum.flatMap fun d1 =>
    definitions.enum.filterMap fun d2 =>
      if d1.1 != d2.1 && d1.2.term == d2.2.definition &&
          d1.2.definition == d2.2.term then
        some { type := .infiniteLoop,
               location := "Definitions in sentences " ++ toString (d1.1 + 1) ++
                 " and " ++ toString (d2.1 + 1),
               severity := .high,
               description := "Mutual definition creates infinite loop" }
      else none

/-- `severityScores` of `calculateRecursionScore`. -/
def severityScore : Severity → ℚ
  | .low => 0.25
  | .medium => 0.5
  | .high => 0.75
  | .critical => 1.0

/-- `calculateRecursionScore`. -/
def calculateRecursionScore (patterns : List RecursionPattern) : ℚ :=
  if patterns.isEmpty then 0
  else
    min 1 ((patterns.foldl (fun sum p => sum + severityScore p.severity) 0) / 3)

/-- Number of patterns of a given type (the source's `typeCount` map; the JavaScript
condition `typeCount.get(t) ?? 0 > 0` parses as `get(t) ?? false` and is truthy exactly
when a pattern of type `t` exists). -/
def typeCount (patterns : List RecursionPattern) (t : PatternType) : Nat :=
  (patterns.filter fun p => p.type == t).length

/-- `generateRecommendations` (of `recursion-detector.ts`). -/
def generateRecommendations (patterns : List RecursionPattern) : List String :=
  (if typeCount patterns .circular != 0 then
    ["Break circular reasoning by introducing external evidence"] else [])
  ++ (if typeCount patterns .selfReferential != 0 then
    ["Replace self-referential statements with objective evidence"] else [])
  ++ (if typeCount patterns .tautological != 0 then
    ["Support tautological claims with empirical data"] else [])
  ++ (if typeCount patterns .infiniteLoop != 0 then
    ["Define terms using independent concepts to avoid loops"] else [])
  ++ (if 3 < patterns.length then
    ["Consider restructuring the argument with clearer logical flow"] else [])

/-- `RecursionDetector.analyzeRecursion`.  (The `logger.warn` call is not modelled.) -/
def analyzeRecursion (text : String) : RecursionAnalysis :=
  let patterns := detectSelfReferential text ++ detectCircular text ++
    detectTautological text ++ detectConceptLoops text
  { hasRecursion := decide (0 < patterns.length),
    patterns := patterns,
    recursionScore := calculateRecursionScore patterns,
    recommendations := generateRecommendations patterns }

end RecursionDetector

end RecursionDetectorTs

/-! ## `src/backend/src/services/claude.service.ts` -/

namespace ClaudeService

/-- The interface `InferenceAngle` of `types/index.ts`. -/
structure InferenceAngle where
  text : String
  confidence : ℚ
  angle : String

/-- The interface `InferenceAngles` of `types/index.ts`. -/
structure InferenceAngles where
  conservative : InferenceAngle
  progressive : InferenceAngle
  synthetic : InferenceAngle

/-- `baseConfidences[angle] || 0.7` of `calculateConfidence`. -/
def baseConfidence (angle : String) : ℚ :=
  if angle = "conservative" then 0.75
  else if angle = "progressive" then 0.65
  else if angle = "synthetic" then 0.70
  else 0.7

/-- `text.match(/evidence:(.*)/is)`: capture group 1, i.e. everything after the first
case-insensitive `evidence:` (the `s` flag lets `.*` run to the end of the string), or
`''` when there is no match. -/
def evidenceTextOf (text : String) : String :=
  match afterSubCI "evidence:".data text.data with
  | some rest => String.mk rest
  | none => ""

/-- `(evidenceText.match(/\n\s*[-•]/g) || []).length >= 2`. -/
def hasMultiplePoints (text : String) : Bool :=
  decide (2 ≤ bulletCount (evidenceTextOf text).data)

/-- `/\[\d+\]|\(\d{4}\)|https?:\/\//.test(text)`. -/
def hasCitationMarks (text : String) : Bool :=
  bracketNumTest text.data || parenYearTest text.data || urlTest text.data

/-- `/\d+%|\$\d+|\d+\s*(times|x)/.test(text)`. -/
def hasQuantitativeMarks (text : String) : Bool :=
  digitPercentTest text.data || dollarDigitTest text.data || timesXTest text.data

/-- `/therefore|because|since|thus|hence/.test(text.toLowerCase())`. -/
def hasLogicalFlow (text : String) : Bool :=
  ["therefore", "because", "since", "thus", "hence"].any fun w =>
    includesSub w.data (lowerChars text.data)

/-- `(text.match(/absolutely|definitely|certainly|undoubtedly/gi) || []).length`. -/
def overconfidenceCount (text : String) : Nat :=
  countSubsAlt ["absolutely".data, "definitely".data, "certainly".data,
    "undoubtedly".data] (lowerChars text.data)

/-- The local `calculateConfidence` of `generateInferenceAngles`: base confidence by
angle, evidence bonuses, over-confidence penalty, circular-reasoning penalty, coherence
adjustment, angle-specific multipliers, and the final clamp
`Math.max(0.45, Math.min(0.92, confidence))`. -/
def calculateConfidence (text angle context : String) : ℚ :=
  let evidenceText := evidenceTextOf text
  let confidence := baseConfidence angle
  let confidence := if hasMultiplePoints text then confidence + 0.08 else confidence
  let confidence := if hasCitationMarks text then confidence + 0.07 else confidence
  let confidence := if hasQuantitativeMarks text then confidence + 0.05 else confidence
  let confidence := if hasLogicalFlow text then confidence + 0.05 else confidence
  let confidence := confidence - (overconfidenceCount text : ℚ) * 0.03
  let logicalMetrics := LogicalAnalysisTs.LogicalAnalyzer.analyzeInference
    text evidenceText context
  let coherenceScore := LogicalAnalysisTs.LogicalAnalyzer.calculateCoherenceScore
    logicalMetrics
  let confidence :=
    if LogicalAnalysisTs.LogicalAnalyzer.detectCircularReasoning text then
      confidence * 0.7
    else confidence
  let confidence := confidence + (coherenceScore - 0.5) * 0.3
  let confidence :=
    if angle = "progressive" ∧ logicalMetrics.evidenceStrength < 0.4 then
      confidence * 0.85
    else confidence
  let confidence :=
    if angle = "synthetic" ∧ logicalMetrics.consistency < 0.5 then
      confidence * 0.8
    else confidence
  max 0.45 (min 0.92 confidence)

/-- `generateInferenceAngles`, with the three `this.anthropic.messages.create` calls
modelled by an oracle `api`: the `k`-th request issued by the method (0 conservative,
1 progressive, 2 synthetic) receives `api k`; `Except.error ()` is a rejected SDK call
(caught by the surrounding `try`/`catch`, which rethrows
`'Failed to generate inference angles'`), and `Except.ok r` a response whose extracted
text is `r.getD ""` (`content[0].type === 'text' ? content[0].text : ''`).  The second
component lists the indices of the requests actually issued, in order.  (The recursion
check loop in the source prefixes a warning onto copies of the texts, but the returned
object is built from the original `const` texts, so the loop does not affect the
result.) -/
def generateInferenceAngles (query context dataType : String)
    (api : Nat → Except Unit (Option String)) :
    Except String InferenceAngles × List Nat :=
  match api 0 with
  | .error _ => (.error "Failed to generate inference angles", [0])
  | .ok r0 =>
    match api 1 with
    | .error _ => (.error "Failed to generate inference angles", [0, 1])
    | .ok r1 =>
      match api 2 with
      | .error _ => (.error "Failed to generate inference angles", [0, 1, 2])
      | .ok r2 =>
        let conservativeText := r0.getD ""
        let progressiveText := r1.getD ""
        let syntheticText := r2.getD ""
        (.ok
          { conservative :=
              { text := conservativeText,
                confidence := calculateConfidence conservativeText "conservative" context,
                angle := "conservative" },
            progressive :=
              { text := progressiveText,
                confidence := calculateConfidence progressiveText "progressive" context,
                angle := "progressive" },
            synthetic :=
              { text := syntheticText,
                confidence := calculateConfidence syntheticText "synthetic" context,
                angle := "synthetic" } },
          [0, 1, 2])

end ClaudeService

/-! ## Helper lemmas -/

theorem clamp01_nonneg (x : ℚ) : 0 ≤ max 0 (min 1 x) := le_max_left 0 _

theorem clamp01_le_one (x : ℚ) : max 0 (min 1 x) ≤ 1 :=
  max_le (by norm_num) (min_le_left 1 x)

theorem severityScore_pos (s : RecursionDetectorTs.Severity) :
    0 < RecursionDetectorTs.RecursionDetector.severityScore s := by
  cases s <;> norm_num [RecursionDetectorTs.RecursionDetector.severityScore]

theorem foldl_severity_le (patterns : List RecursionDetectorTs.RecursionPattern) :
    ∀ init : ℚ, init ≤ patterns.foldl
      (fun sum p => sum + RecursionDetectorTs.RecursionDetector.severityScore p.severity)
      init := by
  induction patterns with
  | nil => intro init; simp
  | cons p ps ih =>
    intro init
    simp only [List.foldl_cons]
    exact le_trans (by linarith [severityScore_pos p.severity]) (ih _)

theorem calculateRecursionScore_bounds
    (patterns : List RecursionDetectorTs.RecursionPattern) :
    0 ≤ RecursionDetectorTs.RecursionDetector.calculateRecursionScore patterns ∧
    RecursionDetectorTs.RecursionDetector.calculateRecursionScore patterns ≤ 1 := by
  unfold RecursionDetectorTs.RecursionDetector.calculateRecursionScore
  split
  · norm_num
  · rename_i hne
    have htot : (0 : ℚ) ≤ patterns.foldl
        (fun sum p => sum + RecursionDetectorTs.RecursionDetector.severityScore p.severity)
        0 := foldl_severity_le patterns 0
    constructor
    · exact le_min (by norm_num) (div_nonneg htot (by norm_num))
    · exact min_le_left 1 _

theorem calculateRecursionScore_pos_iff
    (patterns : List RecursionDetectorTs.RecursionPattern) :
    patterns ≠ [] ↔
      0 < RecursionDetectorTs.RecursionDetector.calculateRecursionScore patterns := by
  unfold RecursionDetectorTs.RecursionDetector.calculateRecursionScore
  constructor
  · intro hne
    rw [if_neg (by simpa [List.isEmpty_iff] using hne)]
    cases patterns with
    | nil => exact absurd rfl hne
    | cons p ps =>
      have htot : RecursionDetectorTs.RecursionDetector.severityScore p.severity ≤
          (p :: ps).foldl
            (fun sum q => sum + RecursionDetectorTs.RecursionDetector.severityScore q.severity)
            0 := by
        simpa using foldl_severity_le ps
          (0 + RecursionDetectorTs.RecursionDetector.severityScore p.severity)
      have hpos := severityScore_pos p.severity
      exact lt_min (by norm_num) (div_pos (lt_of_lt_of_le hpos htot) (by norm_num))
  · intro hpos hnil
    rw [if_pos (by simp [hnil])] at hpos
    exact absurd hpos (by norm_num)

/-! ## The claims -/

/-- Claim C1: for every inference text, angle name and context string, the confidence
number computed by the local `calculateConfidence` of
`ClaudeService.generateInferenceAngles` lies between 0.45 and 0.92 inclusive, thanks to
the final clamp `Math.max(0.45, Math.min(0.92, confidence))`. -/
theorem c1_confidence_clamped (text angle context : String) :
    0.45 ≤ ClaudeService.calculateConfidence text angle context ∧
    ClaudeService.calculateConfidence text angle context ≤ 0.92 := by
  simp only [ClaudeService.calculateConfidence]
  exact ⟨le_max_left _ _, max_le (by norm_num) (min_le_left _ _)⟩

/-- Claim C3: for every inference text, rationale and context, the three metrics
returned by `LogicalAnalyzer.analyzeInference` of `logicalAnalysis.ts` lie in `[0, 1]`,
and so does the weighted average `calculateCoherenceScore` (weights 0.4, 0.35, 0.25). -/
theorem c3_metrics_in_unit_interval (inference rationale context : String) :
    (0 ≤ (LogicalAnalysisTs.LogicalAnalyzer.analyzeInference inference rationale context).consistency ∧
      (LogicalAnalysisTs.LogicalAnalyzer.analyzeInference inference rationale context).consistency ≤ 1) ∧
    (0 ≤ (LogicalAnalysisTs.LogicalAnalyzer.analyzeInference inference rationale context).evidenceStrength ∧
      (LogicalAnalysisTs.LogicalAnalyzer.analyzeInference inference rationale context).evidenceStrength ≤ 1) ∧
    (0 ≤ (LogicalAnalysisTs.LogicalAnalyzer.analyzeInference inference rationale context).reasoningClarity ∧
      (LogicalAnalysisTs.LogicalAnalyzer.analyzeInference inference rationale context).reasoningClarity ≤ 1) ∧
    (0 ≤ LogicalAnalysisTs.LogicalAnalyzer.calculateCoherenceScore
        (LogicalAnalysisTs.LogicalAnalyzer.analyzeInference inference rationale context) ∧
      LogicalAnalysisTs.LogicalAnalyzer.calculateCoherenceScore
        (LogicalAnalysisTs.LogicalAnalyzer.analyzeInference inference rationale context) ≤ 1) := by
  have hc : 0 ≤ LogicalAnalysisTs.LogicalAnalyzer.calculateConsistency inference rationale context ∧
      LogicalAnalysisTs.LogicalAnalyzer.calculateConsistency inference rationale context ≤ 1 := by
    simp only [LogicalAnalysisTs.LogicalAnalyzer.calculateConsistency]
    exact ⟨clamp01_nonneg _, clamp01_le_one _⟩
  have he : 0 ≤ LogicalAnalysisTs.LogicalAnalyzer.calculateEvidenceStrength inference rationale ∧
      LogicalAnalysisTs.LogicalAnalyzer.calculateEvidenceStrength inference rationale ≤ 1 := by
    simp only [LogicalAnalysisTs.LogicalAnalyzer.calculateEvidenceStrength]
    exact ⟨clamp01_nonneg _, clamp01_le_one _⟩
  have hr : 0 ≤ LogicalAnalysisTs.LogicalAnalyzer.calculateReasoningClarity rationale ∧
      LogicalAnalysisTs.LogicalAnalyzer.calculateReasoningClarity rationale ≤ 1 := by
    simp only [LogicalAnalysisTs.LogicalAnalyzer.calculateReasoningClarity]
    exact ⟨clamp01_nonneg _, clamp01_le_one _⟩
  refine ⟨hc, he, hr, ?_, ?_⟩ <;>
    simp only [LogicalAnalysisTs.LogicalAnalyzer.calculateCoherenceScore,
      LogicalAnalysisTs.LogicalAnalyzer.analyzeInference] <;>
    obtain ⟨hc1, hc2⟩ := hc <;> obtain ⟨he1, he2⟩ := he <;> obtain ⟨hr1, hr2⟩ := hr <;>
    linarith

/-- Claim C4: a successful call of `ClaudeService.generateInferenceAngles` (all three
model requests succeed) returns exactly three candidate inferences — the record fields
`conservative`, `progressive`, `synthetic` — each labelled with its angle and carrying
its own generated text and its own confidence computed by `calculateConfidence`. -/
theorem c4_three_angles (query context dataType : String)
    (api : Nat → Except Unit (Option String)) (t0 t1 t2 : Option String)
    (h0 : api 0 = .ok t0) (h1 : api 1 = .ok t1) (h2 : api 2 = .ok t2) :
    (ClaudeService.generateInferenceAngles query context dataType api).1 = Except.ok
      { conservative :=
          { text := t0.getD "",
            confidence := ClaudeService.calculateConfidence (t0.getD "") "conservative" context,
            angle := "conservative" },
        progressive :=
          { text := t1.getD "",
            confidence := ClaudeService.calculateConfidence (t1.getD "") "progressive" context,
            angle := "progressive" },
        synthetic :=
          { text := t2.getD "",
            confidence := ClaudeService.calculateConfidence (t2.getD "") "synthetic" context,
            angle := "synthetic" } } := by
  simp [ClaudeService.generateInferenceAngles, h0, h1, h2]

/-- Witness for C4 at a concrete successful oracle. -/
theorem c4_three_angles_witness :
    (ClaudeService.generateInferenceAngles "q" "ctx" "1st-party"
      (fun _ => .ok (some "t"))).1 = Except.ok
      { conservative :=
          { text := "t",
            confidence := ClaudeService.calculateConfidence "t" "conservative" "ctx",
            angle := "conservative" },
        progressive :=
          { text := "t",
            confidence := ClaudeService.calculateConfidence "t" "progressive" "ctx",
            angle := "progressive" },
        synthetic :=
          { text := "t",
            confidence := ClaudeService.calculateConfidence "t" "synthetic" "ctx",
            angle := "synthetic" } } :=
  c4_three_angles "q" "ctx" "1st-party" (fun _ => .ok (some "t"))
    (some "t") (some "t") (some "t") rfl rfl rfl

/-- Claim C6: the scoring engine is stateless and pure.  With the class state (the
`static readonly` pattern lists) made explicit, `analyzeCoherence` and
`analyzeInference` of `logical-analyzer.ts` return the state unchanged, and an earlier
invocation never changes the result of a later one on any input. -/
theorem c6_analyzer_stateless (s : LogicalAnalyzerTs.LogicalAnalyzer.AnalyzerStatics)
    (t u : String) :
    LogicalAnalyzerTs.LogicalAnalyzer.analyzeCoherenceSt s t =
      (LogicalAnalyzerTs.LogicalAnalyzer.analyzeCoherenceWith s t, s) ∧
    LogicalAnalyzerTs.LogicalAnalyzer.analyzeInferenceSt s t =
      (LogicalAnalyzerTs.LogicalAnalyzer.analyzeInferenceWith s t, s) ∧
    (LogicalAnalyzerTs.LogicalAnalyzer.analyzeCoherenceSt
      (LogicalAnalyzerTs.LogicalAnalyzer.analyzeCoherenceSt s t).2 u).1 =
      (LogicalAnalyzerTs.LogicalAnalyzer.analyzeCoherenceSt s u).1 ∧
    (LogicalAnalyzerTs.LogicalAnalyzer.analyzeInferenceSt
      (LogicalAnalyzerTs.LogicalAnalyzer.analyzeInferenceSt s t).2 u).1 =
      (LogicalAnalyzerTs.LogicalAnalyzer.analyzeInferenceSt s u).1 :=
  ⟨rfl, rfl, rfl, rfl⟩

/-- Claim C8: `generateInferenceAngles` performs no retries — the requests issued form
a duplicate-free sublist of the three planned requests — and whenever any issued
request fails, the whole operation produces exactly the error
`'Failed to generate inference angles'` and no partial `InferenceAngles` object. -/
theorem c8_no_retries_single_error (query context dataType : String)
    (api : Nat → Except Unit (Option String)) :
    ((ClaudeService.generateInferenceAngles query context dataType api).2.Nodup ∧
      (ClaudeService.generateInferenceAngles query context dataType api).2 ⊆ [0, 1, 2]) ∧
    (∀ e, (ClaudeService.generateInferenceAngles query context dataType api).1 =
        .error e → e = "Failed to generate inference angles") ∧
    ((∃ k ∈ (ClaudeService.generateInferenceAngles query context dataType api).2,
        api k = .error ()) ↔
      (ClaudeService.generateInferenceAngles query context dataType api).1 =
        .error "Failed to generate inference angles") := by
  rcases h0 : api 0 with e0 | r0
  · obtain rfl : e0 = () := rfl
    simp [ClaudeService.generateInferenceAngles, h0]
  · rcases h1 : api 1 with e1 | r1
    · obtain rfl : e1 = () := rfl
      simp [ClaudeService.generateInferenceAngles, h0, h1]
    · rcases h2 : api 2 with e2 | r2
      · obtain rfl : e2 = () := rfl
        simp [ClaudeService.generateInferenceAngles, h0, h1, h2]
      · simp [ClaudeService.generateInferenceAngles, h0, h1, h2]

/-- Witness for C8 at a concrete failing oracle. -/
theorem c8_no_retries_single_error_witness :
    (((ClaudeService.generateInferenceAngles "q" "ctx" "1st-party"
        (fun _ => .error ())).2.Nodup ∧
      (ClaudeService.generateInferenceAngles "q" "ctx" "1st-party"
        (fun _ => .error ())).2 ⊆ [0, 1, 2]) ∧
    (∀ e, (ClaudeService.generateInferenceAngles "q" "ctx" "1st-party"
        (fun _ => .error ())).1 = .error e →
      e = "Failed to generate inference angles") ∧
    ((∃ k ∈ (ClaudeService.generateInferenceAngles "q" "ctx" "1st-party"
        (fun _ => .error ())).2, (fun _ : Nat => (.error () : Except Unit (Option String))) k = .error ()) ↔
      (ClaudeService.generateInferenceAngles "q" "ctx" "1st-party"
        (fun _ => .error ())).1 = .error "Failed to generate inference angles")) :=
  c8_no_retries_single_error "q" "ctx" "1st-party" (fun _ => .error ())

/-- Claim C10: for every text, `RecursionDetector.analyzeRecursion` returns a
`recursionScore` in `[0, 1]`, `hasRecursion` holds exactly when the pattern list is
non-empty, and the pattern list is non-empty exactly when the score is positive. -/
theorem c10_recursion_analysis_shape (text : String) :
    (0 ≤ (RecursionDetectorTs.RecursionDetector.analyzeRecursion text).recursionScore ∧
      (RecursionDetectorTs.RecursionDetector.analyzeRecursion text).recursionScore ≤ 1) ∧
    ((RecursionDetectorTs.RecursionDetector.analyzeRecursion text).hasRecursion = true ↔
      (RecursionDetectorTs.RecursionDetector.analyzeRecursion text).patterns ≠ []) ∧
    ((RecursionDetectorTs.RecursionDetector.analyzeRecursion text).patterns ≠ [] ↔
      0 < (RecursionDetectorTs.RecursionDetector.analyzeRecursion text).recursionScore) := by
  simp only [RecursionDetectorTs.RecursionDetector.analyzeRecursion]
  refine ⟨calculateRecursionScore_bounds _, ?_, calculateRecursionScore_pos_iff _⟩
  rw [decide_eq_true_eq, List.length_pos]

open LogicalAnalyzerTs.LogicalAnalyzer in
/-- Claim C2 (code bug): on the empty string (and likewise any whitespace-only string)
`LogicalAnalyzer.analyzeCoherence` computes `f = absolutistCount / words.length` with
`words.length = 0`, so `f`, `soulEcho` and `collapseRisk` are `NaN` (`none`) — not
numbers in `[0, 1]` as the claim, the `CoherenceMetrics` interface comments and every
neighbouring `Math.max(…, 1)`-guarded density require.  The remaining three metrics
evaluate as documented. -/
theorem c2_empty_string_nan_metrics :
    (analyzeCoherence "").psi = jq 1 ∧ (analyzeCoherence "").rho = jq 0 ∧
    (analyzeCoherence "").q = jq 0 ∧ (analyzeCoherence "").f = none ∧
    (analyzeCoherence "").soulEcho = none ∧ (analyzeCoherence "").collapseRisk = none := by
  have hw : wordsOf "" = [] := rfl
  have hs : sentencesOf "" = [] := rfl
  have h1 : countPatterns "" statics.recursiveIndicators = 0 := rfl
  have h2 : countPatterns "" statics.toxicPatterns = 0 := rfl
  have h3 : countPatterns "" statics.absolutistMarkers = 0 := rfl
  simp only [analyzeCoherence, analyzeCoherenceWith, hw, hs, h1, h2, h3]
  norm_num [jn, jq, jdiv, jadd, jsub, jmul, jminN, jmaxN, jround, jround2]

/-- Claim C5: the two `LogicalAnalyzer` versions are incompatible — at the text
`"hello"` the combined coherence of the first version (`analyzeCoherence`'s
`soulEcho`, here 1) differs from the second version's
`calculateCoherenceScore ∘ analyzeInference`, whether rationale and context are fixed
to the same text (0.395) or to the empty string (0.355). -/
theorem c5_two_engine_versions_disagree :
    ∃ t : String,
      (LogicalAnalyzerTs.LogicalAnalyzer.analyzeCoherence t).soulEcho ≠
        jq (LogicalAnalysisTs.LogicalAnalyzer.calculateCoherenceScore
          (LogicalAnalysisTs.LogicalAnalyzer.analyzeInference t t t)) ∧
      (LogicalAnalyzerTs.LogicalAnalyzer.analyzeCoherence t).soulEcho ≠
        jq (LogicalAnalysisTs.LogicalAnalyzer.calculateCoherenceScore
          (LogicalAnalysisTs.LogicalAnalyzer.analyzeInference t "" "")) := by
  refine ⟨"hello", ?_⟩
  have hv1 : (LogicalAnalyzerTs.LogicalAnalyzer.analyzeCoherence "hello").soulEcho =
      jq 1 := by
    have hw : (LogicalAnalyzerTs.LogicalAnalyzer.wordsOf "hello").length = 1 := rfl
    have hs : (LogicalAnalyzerTs.LogicalAnalyzer.sentencesOf "hello").length = 1 := rfl
    have h1 : LogicalAnalyzerTs.LogicalAnalyzer.countPatterns "hello"
        LogicalAnalyzerTs.LogicalAnalyzer.statics.recursiveIndicators = 0 := rfl
    have h2 : LogicalAnalyzerTs.LogicalAnalyzer.countPatterns "hello"
        LogicalAnalyzerTs.LogicalAnalyzer.statics.toxicPatterns = 0 := rfl
    have h3 : LogicalAnalyzerTs.LogicalAnalyzer.countPatterns "hello"
        LogicalAnalyzerTs.LogicalAnalyzer.statics.absolutistMarkers = 0 := rfl
    simp only [LogicalAnalyzerTs.LogicalAnalyzer.analyzeCoherence,
      LogicalAnalyzerTs.LogicalAnalyzer.analyzeCoherenceWith, hw, hs, h1, h2, h3]
    norm_num [jn, jq, jdiv, jadd, jsub, jmul, jminN, jmaxN, jround, jround2]
  have hcons : LogicalAnalysisTs.LogicalAnalyzer.calculateConsistency
      "hello" "hello" "hello" = 0.6 := by
    have h1 : LogicalAnalysisTs.LogicalAnalyzer.hasConnectives "hello" "hello" = false := rfl
    have h2 : LogicalAnalysisTs.LogicalAnalyzer.hasContradictions "hello" "hello" = false := rfl
    have h3 : LogicalAnalysisTs.LogicalAnalyzer.recursiveIndicatorCount "hello" = 0 := rfl
    have h4 : LogicalAnalysisTs.LogicalAnalyzer.hasToxicAbsolutism "hello" = false := rfl
    have h5 : LogicalAnalysisTs.LogicalAnalyzer.overlapCount "hello" "hello" = 1 := rfl
    simp only [LogicalAnalysisTs.LogicalAnalyzer.calculateConsistency, h1, h2, h3, h4, h5]
    norm_num
  have hconsE : LogicalAnalysisTs.LogicalAnalyzer.calculateConsistency
      "hello" "" "" = 0.5 := by
    have h1 : LogicalAnalysisTs.LogicalAnalyzer.hasConnectives "hello" "" = false := rfl
    have h2 : LogicalAnalysisTs.LogicalAnalyzer.hasContradictions "hello" "" = false := rfl
    have h3 : LogicalAnalysisTs.LogicalAnalyzer.recursiveIndicatorCount "hello" = 0 := rfl
    have h4 : LogicalAnalysisTs.LogicalAnalyzer.hasToxicAbsolutism "hello" = false := rfl
    have h5 : LogicalAnalysisTs.LogicalAnalyzer.overlapCount "hello" "" = 0 := rfl
    simp only [LogicalAnalysisTs.LogicalAnalyzer.calculateConsistency, h1, h2, h3, h4, h5]
    norm_num
  have hev : LogicalAnalysisTs.LogicalAnalyzer.calculateEvidenceStrength
      "hello" "hello" = 0.3 := by
    have h1 : LogicalAnalysisTs.LogicalAnalyzer.evidenceMarkerCount "hello" "hello" = 0 := rfl
    have h2 : LogicalAnalysisTs.LogicalAnalyzer.hasCitations "hello" "hello" = false := rfl
    have h3 : LogicalAnalysisTs.LogicalAnalyzer.hasQuantitative "hello" "hello" = false := rfl
    simp only [LogicalAnalysisTs.LogicalAnalyzer.calculateEvidenceStrength, h1, h2, h3]
    norm_num
  have hevE : LogicalAnalysisTs.LogicalAnalyzer.calculateEvidenceStrength
      "hello" "" = 0.3 := by
    have h1 : LogicalAnalysisTs.LogicalAnalyzer.evidenceMarkerCount "hello" "" = 0 := rfl
    have h2 : LogicalAnalysisTs.LogicalAnalyzer.hasCitations "hello" "" = false := rfl
    have h3 : LogicalAnalysisTs.LogicalAnalyzer.hasQuantitative "hello" "" = false := rfl
    simp only [LogicalAnalysisTs.LogicalAnalyzer.calculateEvidenceStrength, h1, h2, h3]
    norm_num
  have hcl : LogicalAnalysisTs.LogicalAnalyzer.calculateReasoningClarity "hello" = 0.2 := by
    have h1 : LogicalAnalysisTs.LogicalAnalyzer.structureMarkerCount "hello" = 0 := rfl
    have h2 : LogicalAnalysisTs.LogicalAnalyzer.hasCausalMarkers "hello" = false := rfl
    have h3 : LogicalAnalysisTs.LogicalAnalyzer.rationaleWordCount "hello" = 1 := rfl
    simp only [LogicalAnalysisTs.LogicalAnalyzer.calculateReasoningClarity, h1, h2, h3]
    norm_num
  have hclE : LogicalAnalysisTs.LogicalAnalyzer.calculateReasoningClarity "" = 0.2 := by
    have h1 : LogicalAnalysisTs.LogicalAnalyzer.structureMarkerCount "" = 0 := rfl
    have h2 : LogicalAnalysisTs.LogicalAnalyzer.hasCausalMarkers "" = false := rfl
    have h3 : LogicalAnalysisTs.LogicalAnalyzer.rationaleWordCount "" = 1 := rfl
    simp only [LogicalAnalysisTs.LogicalAnalyzer.calculateReasoningClarity, h1, h2, h3]
    norm_num
  rw [hv1]
  constructor
  · simp only [LogicalAnalysisTs.LogicalAnalyzer.calculateCoherenceScore,
      LogicalAnalysisTs.LogicalAnalyzer.analyzeInference, hcons, hev, hcl, jq]
    norm_num
  · simp only [LogicalAnalysisTs.LogicalAnalyzer.calculateCoherenceScore,
      LogicalAnalysisTs.LogicalAnalyzer.analyzeInference, hconsE, hevE, hclE, jq]
    norm_num

/-- If the second-half average is more than 0.1 below the first-half average, it is
not more than 0.1 above it (and conversely the comparisons are both false when either
average is `NaN`). -/
theorem jlt_below_not_above {a b : JsNum} :
    jltB a (jsub b (jq 0.1)) = true → jltB (jadd b (jq 0.1)) a = false := by
  cases a with
  | none => intro h; cases b <;> simp [jltB, jsub, jq] at h
  | some x =>
    cases b with
    | none => intro h; simp [jltB, jsub, jq] at h
    | some y =>
      intro h
      simp only [jltB, jsub, jadd, jq, decide_eq_true_eq] at h ⊢
      rw [decide_eq_false_iff_not]
      intro hc
      linarith

/-- Membership in the `criticalPoints` list built by map-to-`-1`-then-filter. -/
theorem critical_points_mem (analyses : List LogicalAnalyzerTs.CoherenceMetrics)
    (i : ℤ) :
    (i ∈ (analyses.enum.map fun p =>
        if jltB p.2.soulEcho (jq 0.3) then (p.1 : ℤ) else -1).filter fun x => x != -1) ↔
      ∃ j : Nat, i = (j : ℤ) ∧
        ∃ m, analyses[j]? = some m ∧ jltB m.soulEcho (jq 0.3) = true := by
  simp only [List.mem_filter, List.mem_map, bne_iff_ne, ne_eq]
  constructor
  · rintro ⟨⟨p, hp, hpi⟩, hne⟩
    rw [List.mem_enum_iff_getElem?] at hp
    by_cases hlt : jltB p.2.soulEcho (jq 0.3) = true
    · rw [if_pos hlt] at hpi
      exact ⟨p.1, hpi.symm, p.2, hp, hlt⟩
    · rw [if_neg hlt] at hpi
      exact absurd hpi.symm hne
  · rintro ⟨j, rfl, m, hm, hlt⟩
    refine ⟨⟨(j, m), List.mem_enum_iff_getElem?.mpr hm, by simp [hlt]⟩, by omega⟩

open LogicalAnalyzerTs.LogicalAnalyzer in
/-- Claim C9: for chains of at least two inferences, `analyzeInferenceChain` reports
`improving` exactly when the second-half average `soulEcho` exceeds the first-half
average by more than 0.1, `degrading` exactly when it is more than 0.1 below it,
`stable` otherwise, and `criticalPoints` are exactly the indices whose `soulEcho` is
below 0.3.  The halves split at `⌊n / 2⌋`, averages being `NaN`-propagating JavaScript
means. -/
theorem c9_chain_trend_and_critical_points (inferences : List String)
    (hn : 2 ≤ inferences.length) :
    ((analyzeInferenceChain inferences).trend = .improving ↔
      jgtB
        (jdiv (soulSum ((inferences.map analyzeCoherence).drop
            ((inferences.map analyzeCoherence).length / 2)))
          (jn ((inferences.map analyzeCoherence).drop
            ((inferences.map analyzeCoherence).length / 2)).length))
        (jadd
          (jdiv (soulSum ((inferences.map analyzeCoherence).take
              ((inferences.map analyzeCoherence).length / 2)))
            (jn ((inferences.map analyzeCoherence).take
              ((inferences.map analyzeCoherence).length / 2)).length))
          (jq 0.1)) = true) ∧
    ((analyzeInferenceChain inferences).trend = .degrading ↔
      jltB
        (jdiv (soulSum ((inferences.map analyzeCoherence).drop
            ((inferences.map analyzeCoherence).length / 2)))
          (jn ((inferences.map analyzeCoherence).drop
            ((inferences.map analyzeCoherence).length / 2)).length))
        (jsub
          (jdiv (soulSum ((inferences.map analyzeCoherence).take
              ((inferences.map analyzeCoherence).length / 2)))
            (jn ((inferences.map analyzeCoherence).take
              ((inferences.map analyzeCoherence).length / 2)).length))
          (jq 0.1)) = true) ∧
    ((analyzeInferenceChain inferences).trend = .stable ↔
      (jgtB
        (jdiv (soulSum ((inferences.map analyzeCoherence).drop
            ((inferences.map analyzeCoherence).length / 2)))
          (jn ((inferences.map analyzeCoherence).drop
            ((inferences.map analyzeCoherence).length / 2)).length))
        (jadd
          (jdiv (soulSum ((inferences.map analyzeCoherence).take
              ((inferences.map analyzeCoherence).length / 2)))
            (jn ((inferences.map analyzeCoherence).take
              ((inferences.map analyzeCoherence).length / 2)).length))
          (jq 0.1)) = false ∧
       jltB
        (jdiv (soulSum ((inferences.map analyzeCoherence).drop
            ((inferences.map analyzeCoherence).length / 2)))
          (jn ((inferences.map analyzeCoherence).drop
            ((inferences.map analyzeCoherence).length / 2)).length))
        (jsub
          (jdiv (soulSum ((inferences.map analyzeCoherence).take
              ((inferences.map analyzeCoherence).length / 2)))
            (jn ((inferences.map analyzeCoherence).take
              ((inferences.map analyzeCoherence).length / 2)).length))
          (jq 0.1)) = false)) ∧
    (∀ i : ℤ, i ∈ (analyzeInferenceChain inferences).criticalPoints ↔
      ∃ j : Nat, i = (j : ℤ) ∧
        ∃ m, (inferences.map analyzeCoherence)[j]? = some m ∧
          jltB m.soulEcho (jq 0.3) = true) := by
  simp only [analyzeInferenceChain]
  generalize (jdiv (soulSum ((inferences.map analyzeCoherence).take
      ((inferences.map analyzeCoherence).length / 2)))
    (jn ((inferences.map analyzeCoherence).take
      ((inferences.map analyzeCoherence).length / 2)).length)) = fa
  generalize (jdiv (soulSum ((inferences.map analyzeCoherence).drop
      ((inferences.map analyzeCoherence).length / 2)))
    (jn ((inferences.map analyzeCoherence).drop
      ((inferences.map analyzeCoherence).length / 2)).length)) = sa
  refine ⟨?_, ?_, ?_, fun i => critical_points_mem (inferences.map analyzeCoherence) i⟩ <;>
    cases hgt : jgtB sa (jadd fa (jq 0.1)) <;>
    cases hlt : jltB sa (jsub fa (jq 0.1)) <;>
    simp only [hgt, hlt, if_true, if_false, Bool.false_eq_true, ite_true, ite_false] <;>
    try (first
      | (rw [jgtB] at hgt
         rw [jlt_below_not_above hlt] at hgt
         exact absurd hgt Bool.false_ne_true)
      | simp)

open LogicalAnalyzerTs.LogicalAnalyzer in
/-- Witness for C9 at the concrete two-element chain `["a", "b"]`. -/
theorem c9_chain_trend_witness :
    ((analyzeInferenceChain ["a", "b"]).trend = .improving ↔
      jgtB
        (jdiv (soulSum ((["a", "b"].map analyzeCoherence).drop
            ((["a", "b"].map analyzeCoherence).length / 2)))
          (jn ((["a", "b"].map analyzeCoherence).drop
            ((["a", "b"].map analyzeCoherence).length / 2)).length))
        (jadd
          (jdiv (soulSum ((["a", "b"].map analyzeCoherence).take
              ((["a", "b"].map analyzeCoherence).length / 2)))
            (jn ((["a", "b"].map analyzeCoherence).take
              ((["a", "b"].map analyzeCoherence).length / 2)).length))
          (jq 0.1)) = true) ∧
    ((analyzeInferenceChain ["a", "b"]).trend = .degrading ↔
      jltB
        (jdiv (soulSum ((["a", "b"].map analyzeCoherence).drop
            ((["a", "b"].map analyzeCoherence).length / 2)))
          (jn ((["a", "b"].map analyzeCoherence).drop
            ((["a", "b"].map analyzeCoherence).length / 2)).length))
        (jsub
          (jdiv (soulSum ((["a", "b"].map analyzeCoherence).take
              ((["a", "b"].map analyzeCoherence).length / 2)))
            (jn ((["a", "b"].map analyzeCoherence).take
              ((["a", "b"].map analyzeCoherence).length / 2)).length))
          (jq 0.1)) = true) ∧
    ((analyzeInferenceChain ["a", "b"]).trend = .stable ↔
      (jgtB
        (jdiv (soulSum ((["a", "b"].map analyzeCoherence).drop
            ((["a", "b"].map analyzeCoherence).length / 2)))
          (jn ((["a", "b"].map analyzeCoherence).drop
            ((["a", "b"].map analyzeCoherence).length / 2)).length))
        (jadd
          (jdiv (soulSum ((["a", "b"].map analyzeCoherence).take
              ((["a", "b"].map analyzeCoherence).length / 2)))
            (jn ((["a", "b"].map analyzeCoherence).take
              ((["a", "b"].map analyzeCoherence).length / 2)).length))
          (jq 0.1)) = false ∧
       jltB
        (jdiv (soulSum ((["a", "b"].map analyzeCoherence).drop
            ((["a", "b"].map analyzeCoherence).length / 2)))
          (jn ((["a", "b"].map analyzeCoherence).drop
            ((["a", "b"].map analyzeCoherence).length / 2)).length))
        (jsub
          (jdiv (soulSum ((["a", "b"].map analyzeCoherence).take
              ((["a", "b"].map analyzeCoherence).length / 2)))
            (jn ((["a", "b"].map analyzeCoherence).take
              ((["a", "b"].map analyzeCoherence).length / 2)).length))
          (jq 0.1)) = false)) ∧
    (∀ i : ℤ, i ∈ (analyzeInferenceChain ["a", "b"]).criticalPoints ↔
      ∃ j : Nat, i = (j : ℤ) ∧
        ∃ m, (["a", "b"].map analyzeCoherence)[j]? = some m ∧
          jltB m.soulEcho (jq 0.3) = true) :=
  c9_chain_trend_and_critical_points ["a", "b"] (by norm_num)

/-! ## Claim C7: circular-reasoning reporting -/

/-- The circularity condition as the claim states it: the lowercased text contains
`because`, then (anywhere later) `therefore`, then (anywhere later) `because` — with no
restriction about line terminators. -/
def CircularOccurrence (text : String) : Prop :=
  SeqExists ["because".data, "therefore".data, "because".data] (lowerChars text.data)

/-- The circularity condition the code actually tests: the same ordered occurrence, but
inside a single maximal line-terminator-free segment of the lowercased text (a `.` in
`/because.*therefore.*because/i` does not cross a line terminator). -/
def CircularLineOccurrence (text : String) : Prop :=
  ∃ line ∈ splitRuns isLineTerm (lowerChars text.data),
    SeqExists ["because".data, "therefore".data, "because".data] line

/-- Membership of the circularity marker in `detectStructuralIssues` is equivalent to
the circularity regex test (the other two markers are different strings). -/
theorem structural_mem_iff (text : String) :
    ("Circular reasoning detected" ∈
      LogicalAnalyzerTs.LogicalAnalyzer.detectStructuralIssues text) ↔
    LogicalAnalyzerTs.LogicalAnalyzer.circularRegexTest text = true := by
  have hne1 : "Circular reasoning detected" ≠ "Excessive capitalization" := by decide
  have hne2 : "Circular reasoning detected" ≠ "High word repetition" := by decide
  unfold LogicalAnalyzerTs.LogicalAnalyzer.detectStructuralIssues
  cases h1 : LogicalAnalyzerTs.LogicalAnalyzer.circularRegexTest text <;>
    cases h2 : jgtB (jdiv (jn (LogicalAnalyzerTs.LogicalAnalyzer.capsCount text))
      (jn text.data.length)) (jq 0.3) <;>
    by_cases h3 : ((LogicalAnalyzerTs.LogicalAnalyzer.rawWords text).dedup.length : ℚ) <
      (LogicalAnalyzerTs.LogicalAnalyzer.rawWords text).length * 0.5 <;>
    simp [h2, h3, hne1, hne2]

/-- The circularity recommendation is generated exactly when the structural issues
contain the circularity marker (the other four recommendations are different
strings). -/
theorem contains_eq_mem (l : List String) (a : String) :
    l.contains a = true ↔ a ∈ l := by
  constructor
  · intro h
    exact List.elem_iff.mp (by simpa [List.contains] using h)
  · intro h
    simpa [List.contains] using List.elem_iff.mpr h

theorem recommendation_mem_iff (metrics : LogicalAnalyzerTs.CoherenceMetrics)
    (patterns : LogicalAnalyzerTs.PatternGroups) :
    ("Break circular reasoning with evidence-based statements" ∈
      LogicalAnalyzerTs.LogicalAnalyzer.generateRecommendations metrics patterns) ↔
    "Circular reasoning detected" ∈ patterns.structural := by
  have hne1 : "Break circular reasoning with evidence-based statements" ≠
    "Reduce recursive language patterns" := by decide
  have hne2 : "Break circular reasoning with evidence-based statements" ≠
    "Avoid absolutist statements" := by decide
  have hne3 : "Break circular reasoning with evidence-based statements" ≠
    "Replace toxic patterns with balanced language" := by decide
  have hne4 : "Break circular reasoning with evidence-based statements" ≠
    "Restructure inference for better logical flow" := by decide
  unfold LogicalAnalyzerTs.LogicalAnalyzer.generateRecommendations
  by_cases hmem : "Circular reasoning detected" ∈ patterns.structural
  · have h4 : patterns.structural.contains "Circular reasoning detected" = true :=
      (contains_eq_mem _ _).mpr hmem
    cases h1 : jgtB metrics.rho (jq 0.5) <;>
      cases h2 : jgtB metrics.f (jq 0.5) <;>
      cases h3 : patterns.toxic.length != 0 <;>
      cases h5 : jltB metrics.soulEcho (jq 0.4) <;>
      simp [h1, h2, h3, h4, h5, hne1, hne2, hne3, hne4, hmem]
  · have h4 : patterns.structural.contains "Circular reasoning detected" = false := by
      cases hb : patterns.structural.contains "Circular reasoning detected"
      · rfl
      · exact absurd ((contains_eq_mem _ _).mp hb) hmem
    cases h1 : jgtB metrics.rho (jq 0.5) <;>
      cases h2 : jgtB metrics.f (jq 0.5) <;>
      cases h3 : patterns.toxic.length != 0 <;>
      cases h5 : jltB metrics.soulEcho (jq 0.4) <;>
      simp [h1, h2, h3, h4, h5, hne1, hne2, hne3, hne4, hmem]

/-- The circularity regex test holds exactly when some single line (maximal
terminator-free segment) of the lowercased text contains the three literals in
order. -/
theorem circular_test_iff (text : String) :
    LogicalAnalyzerTs.LogicalAnalyzer.circularRegexTest text = true ↔
    CircularLineOccurrence text := by
  unfold LogicalAnalyzerTs.LogicalAnalyzer.circularRegexTest regexDotSeqTest
    CircularLineOccurrence
  rw [List.any_eq_true]
  constructor
  · rintro ⟨line, hline, hm⟩
    exact ⟨line, hline, (matchSeq_iff_SeqExists (by decide)).mp hm⟩
  · rintro ⟨line, hline, hm⟩
    exact ⟨line, hline, (matchSeq_iff_SeqExists (by decide)).mpr hm⟩

/-- Claim C7 (amended): `analyzeInference` of `logical-analyzer.ts` reports
`'Circular reasoning detected'` — and with it the recommendation
`'Break circular reasoning with evidence-based statements'` — exactly when some single
line of the text contains, case-insensitively, `because` followed later by `therefore`
followed later by `because`; the regex `.` does not cross line terminators, so
occurrences spanning several lines are not reported. -/
theorem c7_circular_reported_iff_single_line_occurrence (text : String) :
    (("Circular reasoning detected" ∈
        (LogicalAnalyzerTs.LogicalAnalyzer.analyzeInference text).patterns.structural) ↔
      CircularLineOccurrence text) ∧
    (("Break circular reasoning with evidence-based statements" ∈
        (LogicalAnalyzerTs.LogicalAnalyzer.analyzeInference text).recommendations) ↔
      CircularLineOccurrence text) := by
  have hmem := structural_mem_iff text
  have hrec := recommendation_mem_iff
    (LogicalAnalyzerTs.LogicalAnalyzer.analyzeCoherenceWith
      LogicalAnalyzerTs.LogicalAnalyzer.statics text)
    { recursive := LogicalAnalyzerTs.LogicalAnalyzer.detectPatterns text
        LogicalAnalyzerTs.LogicalAnalyzer.statics.recursiveIndicators,
      toxic := LogicalAnalyzerTs.LogicalAnalyzer.detectPatterns text
        LogicalAnalyzerTs.LogicalAnalyzer.statics.toxicPatterns,
      structural := LogicalAnalyzerTs.LogicalAnalyzer.detectStructuralIssues text }
  constructor
  · simp only [LogicalAnalyzerTs.LogicalAnalyzer.analyzeInference,
      LogicalAnalyzerTs.LogicalAnalyzer.analyzeInferenceWith]
    exact hmem.trans (circular_test_iff text)
  · simp only [LogicalAnalyzerTs.LogicalAnalyzer.analyzeInference,
      LogicalAnalyzerTs.LogicalAnalyzer.analyzeInferenceWith]
    exact hrec.trans (hmem.trans (circular_test_iff text))

/-- Counterexample to claim C7 as stated: in
`"because a therefore b\nbecause c"` the three words occur in order
(case-insensitively), yet `analyzeInference` reports no circular reasoning, because the
final `because` lies on another line. -/
theorem c7_multiline_occurrence_not_reported :
    CircularOccurrence "because a therefore b\nbecause c" ∧
    ¬ ("Circular reasoning detected" ∈
        (LogicalAnalyzerTs.LogicalAnalyzer.analyzeInference
          "because a therefore b\nbecause c").patterns.structural) := by
  constructor
  · refine ⟨[], " a therefore b\nbecause c".data, by decide,
      " a ".data, " b\nbecause c".data, by decide,
      " b\n".data, " c".data, by decide, trivial⟩
  · have h : LogicalAnalyzerTs.LogicalAnalyzer.circularRegexTest
        "because a therefore b\nbecause c" = false := by decide
    simp only [LogicalAnalyzerTs.LogicalAnalyzer.analyzeInference,
      LogicalAnalyzerTs.LogicalAnalyzer.analyzeInferenceWith]
    rw [structural_mem_iff, h]
    simp

end VerifiedInference
